import Mathlib

/-!
Verification development for the Hospitals-Access-Peru analytical pipeline
(`src/estimation.py`).  Pandas/GeoPandas tables are embedded as Lean lists of
row structures together with table-level column-presence flags (column
selection in pandas is a table-level operation).  Coordinates are rationals.
Geometry objects (polygons, buffers, CRS reprojection) are abstracted behind
a `GeoOracle`: no claim below depends on concrete geometry, only on how the
code routes geometric results.  Each Python function body is embedded as an
`Except`-valued computation (a raised exception is `Except.error`), and the
function itself is that body run under its top-level `try/except` handler,
which converts any exception into the documented sentinel return value.
-/

namespace HospitalsPeru

/-- One row of the raw IPRESS facility CSV.  Field values are meaningful only
when the corresponding column-presence flag of `RawHospitalTable` is set.
`norte`/`este` are `none` when the cell is null; `ubigeoRaw` is the result of
numeric coercion of the UBIGEO cell (`none` when null or non-numeric, as with
`pd.to_numeric(errors=..)` followed by `dropna`). -/
structure RawHospitalRow where
  estado : String
  condicion : String
  norte : Option ℚ
  este : Option ℚ
  codigoUnico : String
  nombre : String
  ubigeoRaw : Option Int
  departamento : String
deriving DecidableEq

/-- The raw facility table: column-presence flags plus rows.  The four
required columns (Estado, CondiciÛn, NORTE, ESTE) and the four optional
canonical columns each get a flag. -/
structure RawHospitalTable where
  hasEstado : Bool
  hasCondicion : Bool
  hasNorte : Bool
  hasEste : Bool
  hasCodigoUnico : Bool
  hasNombre : Bool
  hasUbigeo : Bool
  hasDepartamento : Bool
  rows : List RawHospitalRow
deriving DecidableEq

/-- Environment seen by `load_and_clean_hospitals`: whether IPRESS.csv is on
disk, whether some candidate encoding parses it, and its parsed content. -/
structure HospEnv where
  fileOnDisk : Bool
  decodable : Bool
  raw : RawHospitalTable
deriving DecidableEq

/-- One row of the cleaned facility table (post rename).  `ubigeo` is
meaningful only when the table's `hasUbigeo` flag is set, in which case rows
with a non-coercible UBIGEO have been dropped. -/
structure CleanRow where
  codigoIpress : String
  nombre : String
  ubigeo : Int
  longitud : ℚ
  latitud : ℚ
  departamento : String
  estado : String
deriving DecidableEq

/-- The cleaned facility table with presence flags for the optional columns
(LONGITUD, LATITUD, ESTADO always exist because their sources are required). -/
structure CleanTable where
  hasCodigoIpress : Bool
  hasNombre : Bool
  hasUbigeo : Bool
  hasDepartamento : Bool
  rows : List CleanRow
deriving DecidableEq

/-- Python-exception semantics of a function body: `Except.error` is an
uncaught exception inside the `try` block. -/
abbrev PyBody (α : Type) : Type := Except String α

/-- Semantics of a top-level `try: ... except Exception: return fallback`
block, viewed at the exception level: the handler converts any raised
exception into a normally-returned `fallback`. -/
def pyCatch {α : Type} (body : PyBody α) (fallback : α) : PyBody α :=
  match body with
  | Except.ok a => Except.ok a
  | Except.error _ => Except.ok fallback

/-- The value actually returned by a function whose whole body sits inside a
`try/except` returning `fallback` on any exception. -/
def runPy {α : Type} (body : PyBody α) (fallback : α) : α :=
  match body with
  | Except.ok a => a
  | Except.error _ => fallback

/-- Status filter of `load_and_clean_hospitals`:
`(df.Estado == 'ACTIVADO') & (df.CondiciÛn == 'EN FUNCIONAMIENTO')`. -/
def statusFilter (r : RawHospitalRow) : Bool :=
  r.estado == "ACTIVADO" && r.condicion == "EN FUNCIONAMIENTO"

/-- `dropna(subset=['NORTE', 'ESTE'])`. -/
def coordNotNull (r : RawHospitalRow) : Bool :=
  r.norte.isSome && r.este.isSome

/-- The -18.5 bound written as a kernel-computable rational. -/
def latMin : ℚ := mkRat (-37) 2

/-- The -81.5 bound written as a kernel-computable rational. -/
def lonMin : ℚ := mkRat (-163) 2

/-- `.between` bounds of the Peru bounding box (inclusive both ends):
NORTE in [-18.5, 0], ESTE in [-81.5, -68]. -/
def inPeruBounds (n e : ℚ) : Bool :=
  decide (latMin ≤ n) && decide (n ≤ 0) && decide (lonMin ≤ e) && decide (e ≤ -68)

/-- Coordinate bounding-box filter of `load_and_clean_hospitals`. -/
def coordInPeru (r : RawHospitalRow) : Bool :=
  match r.norte, r.este with
  | some n, some e => inPeruBounds n e
  | _, _ => false

/-- Column selection and rename of `load_and_clean_hospitals`; note the
upstream swap, preserved exactly: NORTE becomes LONGITUD and ESTE becomes
LATITUD. -/
def toCleanRow (r : RawHospitalRow) : CleanRow :=
  { codigoIpress := r.codigoUnico
    nombre := r.nombre
    ubigeo := r.ubigeoRaw.getD 0
    longitud := (r.norte).getD 0
    latitud := (r.este).getD 0
    departamento := r.departamento
    estado := r.estado }

/-- Body of `load_and_clean_hospitals` (inside its top-level try).  Returning
`Except.ok none` models a `return None` statement; nothing in this body can
raise, every fallible sub-step being individually guarded in the source. -/
def load_and_clean_hospitals_body (env : HospEnv) : PyBody (Option CleanTable) :=
  if env.fileOnDisk = false then Except.ok none
  else if env.decodable = false then Except.ok none
  else
    let t := env.raw
    if t.hasEstado && t.hasCondicion && t.hasNorte && t.hasEste then
      let f1 := t.rows.filter statusFilter
      let f2 := f1.filter coordNotNull
      let f3 := f2.filter coordInPeru
      let f4 := if t.hasUbigeo then f3.filter (fun r => r.ubigeoRaw.isSome) else f3
      Except.ok (some
        { hasCodigoIpress := t.hasCodigoUnico
          hasNombre := t.hasNombre
          hasUbigeo := t.hasUbigeo
          hasDepartamento := t.hasDepartamento
          rows := f4.map toCleanRow })
    else Except.ok none

/-- `load_and_clean_hospitals`: the body run under its catch-all handler. -/
def load_and_clean_hospitals (env : HospEnv) : Option CleanTable :=
  runPy (load_and_clean_hospitals_body env) none

/-- One raw district row of DISTRITOS.shp.  `idRaw` is the numeric coercion
of the IDDIST (or UBIGEO) cell; geometry is abstracted to its validity bit
(the `buffer(0)` repair and the CRS reprojection leave the modelled columns
untouched). -/
structure RawShapeRow where
  idRaw : Option Int
  distrito : String
  geomValid : Bool
deriving DecidableEq

/-- Environment seen by `load_and_process_shapefile`. -/
structure ShapeEnv where
  fileOnDisk : Bool
  readable : Bool
  hasIddist : Bool
  hasUbigeoCol : Bool
  hasDistrito : Bool
  rows : List RawShapeRow
deriving DecidableEq

/-- One row of the processed district table (UBIGEO already an integer). -/
structure DistrictRow where
  ubigeo : Int
  distrito : String
deriving DecidableEq

/-- The processed district-polygon table. -/
structure MapsTable where
  rows : List DistrictRow
deriving DecidableEq

/-- Body of `load_and_process_shapefile`.  The column selection
`maps[['IDDIST', 'DISTRITO', 'geometry']]` raises a KeyError (caught by the
top-level handler) when DISTRITO is absent; that is the one genuine raise
site among the modelled operations. -/
def load_and_process_shapefile_body (env : ShapeEnv) : PyBody (Option MapsTable) :=
  if env.fileOnDisk = false then Except.ok none
  else if env.readable = false then Except.ok none
  else if env.rows.length = 0 then Except.ok none
  else if !env.hasIddist && !env.hasUbigeoCol then Except.ok none
  else if env.hasDistrito = false then Except.error "KeyError: DISTRITO"
  else
    let coerced := (env.rows.filter (fun r => r.idRaw.isSome)).map
      (fun r => { ubigeo := r.idRaw.getD 0, distrito := r.distrito : DistrictRow })
    Except.ok (some { rows := coerced })

/-- `load_and_process_shapefile`: the body under its catch-all handler. -/
def load_and_process_shapefile (env : ShapeEnv) : Option MapsTable :=
  runPy (load_and_process_shapefile_body env) none

/-- One row of the merged `dataset_cv`: a district row paired with a facility
row sharing its UBIGEO. -/
structure JoinedRow where
  district : DistrictRow
  hospital : CleanRow
deriving DecidableEq

/-- The single UBIGEO column of the merged table (the pandas join key). -/
def JoinedRow.key (r : JoinedRow) : Int :=
  r.district.ubigeo

/-- The merged table.  DEPARTAMENTO is present exactly when the facility
table carried it. -/
structure JoinedTable where
  hasDepartamento : Bool
  rows : List JoinedRow
deriving DecidableEq

/-- `pd.merge(maps_gdf, hospitals_df, how='inner', on='UBIGEO')`: for each
left (district) row in order, all facility rows with the same UBIGEO. -/
def innerMergeRows (ms : List DistrictRow) (hs : List CleanRow) : List JoinedRow :=
  ms.flatMap (fun m =>
    (hs.filter (fun hr => hr.ubigeo == m.ubigeo)).map
      (fun hr => { district := m, hospital := hr }))

/-- Body of `merge_hospitals_with_shapefile`.  The source checks both inputs
for `None` and for a UBIGEO column, performs the inner merge, and returns
`None` itself when the merge result is empty (a processed `MapsTable` always
has a UBIGEO column, so only the facility side's flag is consulted). -/
def merge_hospitals_with_shapefile_body (hOpt : Option CleanTable)
    (mOpt : Option MapsTable) : PyBody (Option JoinedTable) :=
  match hOpt, mOpt with
  | some h, some m =>
    if h.hasUbigeo = false then Except.ok none
    else
      let cv := innerMergeRows m.rows h.rows
      if cv.length = 0 then Except.ok none
      else Except.ok (some { hasDepartamento := h.hasDepartamento, rows := cv })
  | _, _ => Except.ok none

/-- `merge_hospitals_with_shapefile`: the body under its catch-all handler. -/
def merge_hospitals_with_shapefile (hOpt : Option CleanTable)
    (mOpt : Option MapsTable) : Option JoinedTable :=
  runPy (merge_hospitals_with_shapefile_body hOpt mOpt) none

/-- `groupby(key).size().reset_index()`: one `(key, multiplicity)` pair per
distinct key of the input (group order abstracted; no claim depends on it). -/
def groupbySize (keys : List Int) : List (Int × Nat) :=
  keys.dedup.map (fun k => (k, keys.count k))

/-- One row of the per-district count table. -/
structure CountRow where
  district : DistrictRow
  num_hospitales : Nat
deriving DecidableEq

/-- The per-district count table. -/
structure CountTable where
  rows : List CountRow
deriving DecidableEq

/-- `maps_gdf.merge(hospital_count, on='UBIGEO', how='left')` followed by
`fillna(0)`: every district row is kept, paired with each matching count row,
or with count 0 when no count row matches. -/
def calcCountRows (cv : JoinedTable) (maps : MapsTable) : List CountRow :=
  let hospital_count := groupbySize (cv.rows.map JoinedRow.key)
  maps.rows.flatMap (fun m =>
    match hospital_count.filter (fun c => c.1 == m.ubigeo) with
    | [] => [{ district := m, num_hospitales := 0 }]
    | ms => ms.map (fun c => { district := m, num_hospitales := c.2 }))

/-- Body of `calculate_hospital_counts`. -/
def calculate_hospital_counts_body (cvOpt : Option JoinedTable)
    (mOpt : Option MapsTable) : PyBody (Option CountTable) :=
  match cvOpt, mOpt with
  | some cv, some m => Except.ok (some { rows := calcCountRows cv m })
  | _, _ => Except.ok none

/-- `calculate_hospital_counts`: the body under its catch-all handler. -/
def calculate_hospital_counts (cvOpt : Option JoinedTable)
    (mOpt : Option MapsTable) : Option CountTable :=
  runPy (calculate_hospital_counts_body cvOpt mOpt) none

/-- One row of the per-department totals table. -/
structure DeptStat where
  departamento : String
  total_hospitals : Nat
deriving DecidableEq

/-- `groupby('DEPARTAMENTO').size()` on string keys. -/
def groupbySizeStr (keys : List String) : List (String × Nat) :=
  keys.dedup.map (fun k => (k, keys.count k))

/-- Descending insertion step for `sort_values('total_hospitals',
ascending=False)`. -/
def insertDesc (x : DeptStat) : List DeptStat → List DeptStat
  | [] => [x]
  | y :: ys => if y.total_hospitals ≤ x.total_hospitals then x :: y :: ys
               else y :: insertDesc x ys

/-- Deterministic descending sort modelling `sort_values(ascending=False)`
(the source's quicksort leaves tie order unspecified; any sorted permutation
is a faithful instance). -/
def sortDesc : List DeptStat → List DeptStat
  | [] => []
  | x :: xs => insertDesc x (sortDesc xs)

/-- Body of `calculate_department_stats`. -/
def calculate_department_stats_body (cvOpt : Option JoinedTable) :
    PyBody (Option (List DeptStat)) :=
  match cvOpt with
  | none => Except.ok none
  | some cv =>
    if cv.hasDepartamento = false then Except.ok none
    else
      let grouped := (groupbySizeStr (cv.rows.map (fun r => r.hospital.departamento))).map
        (fun p => { departamento := p.1, total_hospitals := p.2 : DeptStat })
      Except.ok (some (sortDesc grouped))

/-- `calculate_department_stats`: the body under its catch-all handler. -/
def calculate_department_stats (cvOpt : Option JoinedTable) :
    Option (List DeptStat) :=
  runPy (calculate_department_stats_body cvOpt) none

/-- One raw population-center row: the value of the column mapped to NOMBDEP,
the dedup id, and geometric validity. -/
structure RawCcppRow where
  nombdepVal : String
  idVal : Nat
  geomValid : Bool
deriving DecidableEq

/-- The raw CCPP table: whether some column was heuristically mapped to
NOMBDEP, whether one was mapped to IDCCPP, and the rows. -/
structure RawCcppTable where
  hasDepCol : Bool
  hasIdCol : Bool
  rows : List RawCcppRow
deriving DecidableEq

/-- Environment seen by `load_and_process_ccpp`. -/
structure CcppEnv where
  fileOnDisk : Bool
  readable : Bool
  raw : RawCcppTable
deriving DecidableEq

/-- One processed population-center row. -/
structure CcppRow where
  nombdep : String
  idc : Nat
deriving DecidableEq

/-- The processed population-center table. -/
structure CcppTable where
  hasNombdep : Bool
  rows : List CcppRow
deriving DecidableEq

/-- `drop_duplicates(subset=['IDCCPP'])`: keep the first row bearing each id. -/
def dedupById : List RawCcppRow → List Nat → List RawCcppRow
  | [], _ => []
  | r :: rs, seen =>
    if r.idVal ∈ seen then dedupById rs seen
    else r :: dedupById rs (r.idVal :: seen)

/-- Body of `load_and_process_ccpp`. -/
def load_and_process_ccpp_body (env : CcppEnv) : PyBody (Option CcppTable) :=
  if env.fileOnDisk = false then Except.ok none
  else if env.readable = false then Except.ok none
  else if env.raw.rows.length = 0 then Except.ok none
  else
    let valid := env.raw.rows.filter (fun r => r.geomValid)
    let deduped := if env.raw.hasIdCol then dedupById valid [] else valid
    Except.ok (some
      { hasNombdep := env.raw.hasDepCol
        rows := deduped.map (fun r => { nombdep := r.nombdepVal, idc := r.idVal }) })

/-- `load_and_process_ccpp`: the body under its catch-all handler. -/
def load_and_process_ccpp (env : CcppEnv) : Option CcppTable :=
  runPy (load_and_process_ccpp_body env) none

/-- Abstraction of the geometric machinery of `analyze_proximity`:
`bufferOk` is whether `create_buffer_safe` succeeds in adding the
`buffer_10km` column, and `within c h` is the point-in-polygon test of
facility `h` against the 10 km buffer of center `c`. -/
structure GeoOracle where
  bufferOk : Bool
  within : CcppRow → JoinedRow → Bool

/-- A population center together with its `hospitals_in_10km` column. -/
structure ProxRow where
  center : CcppRow
  hospitalsIn10km : Nat
deriving DecidableEq

/-- Return type of `analyze_proximity`: most isolated, most concentrated, and
the full per-center table. -/
def ProxResult : Type :=
  Option ProxRow × Option ProxRow × Option (List ProxRow)

/-- The `(None, None, None)` sentinel of `analyze_proximity`. -/
def noProx : ProxResult :=
  (none, none, none)

/-- Python `str.upper()`, written as the character-wise ASCII uppercase map
over the string's character list (what `String.toUpper` computes). -/
def upperStr (s : String) : String :=
  String.mk (s.data.map Char.toUpper)

/-- `ccpp_gdf[ccpp_gdf['NOMBDEP'].str.upper() == department_name.upper()]`. -/
def matchingCenters (ccpp : CcppTable) (dept : String) : List CcppRow :=
  ccpp.rows.filter (fun c => upperStr c.nombdep == upperStr dept)

/-- `count_hospitals_safe`: number of facilities within the buffer of `c`. -/
def countHospitals (geo : GeoOracle) (hospitals : List JoinedRow) (c : CcppRow) : Nat :=
  (hospitals.filter (fun h => geo.within c h)).length

/-- `idxmin` on a positional series: index of the first minimum. -/
def idxOfMin : List Nat → Nat
  | [] => 0
  | [_] => 0
  | x :: y :: rest =>
    let j := idxOfMin (y :: rest)
    if x ≤ (y :: rest).getD j 0 then 0 else j + 1

/-- `idxmax` on a positional series: index of the first maximum. -/
def idxOfMax : List Nat → Nat
  | [] => 0
  | [_] => 0
  | x :: y :: rest =>
    let j := idxOfMax (y :: rest)
    if (y :: rest).getD j 0 ≤ x then 0 else j + 1

/-- Body of `analyze_proximity`.  The buffer-failure path (inner try of
`create_buffer_safe` swallows its error, leaving no `buffer_10km` column,
which the subsequent guard turns into the sentinel) is modelled by
`geo.bufferOk`; `count_hospitals_safe`'s inner try never fires because the
modelled `within` test is total. -/
def analyze_proximity_body (geo : GeoOracle) (ccppOpt : Option CcppTable)
    (hospitals : List JoinedRow) (dept : String) : PyBody ProxResult :=
  match ccppOpt with
  | none => Except.ok noProx
  | some ccpp =>
    if ccpp.hasNombdep = false then Except.ok noProx
    else
      let department_ccpp := matchingCenters ccpp dept
      if department_ccpp.length = 0 then Except.ok noProx
      else if geo.bufferOk = false then Except.ok noProx
      else
        let withCounts := department_ccpp.map
          (fun c => { center := c, hospitalsIn10km := countHospitals geo hospitals c : ProxRow })
        let counts := withCounts.map ProxRow.hospitalsIn10km
        let dflt : ProxRow := { center := { nombdep := "", idc := 0 }, hospitalsIn10km := 0 }
        let most_isolated := withCounts.getD (idxOfMin counts) dflt
        let most_concentrated := withCounts.getD (idxOfMax counts) dflt
        Except.ok (some most_isolated, some most_concentrated, some withCounts)

/-- `analyze_proximity`: the body under its catch-all handler. -/
def analyze_proximity (geo : GeoOracle) (ccppOpt : Option CcppTable)
    (hospitals : List JoinedRow) (dept : String) : ProxResult :=
  runPy (analyze_proximity_body geo ccppOpt hospitals dept) noProx

/-- Environment of the whole pipeline run. -/
structure Env where
  hospEnv : HospEnv
  shapeEnv : ShapeEnv
  ccppEnv : CcppEnv
  geo : GeoOracle

/-- The result bundle assembled by `load_all_data`.  `gdf_hospitales` is
`dataset_cv` with a point layer built from its LONGITUD/LATITUD columns;
since geometry is abstracted, it carries the same rows. -/
structure ResultBundle where
  hospitals : CleanTable
  maps : MapsTable
  dataset_cv : JoinedTable
  map_data : CountTable
  dept_stats : List DeptStat
  gdf_hospitales : JoinedTable
  lima_analysis : ProxResult
  loreto_analysis : ProxResult

/-- Body of `load_all_data`: validate required files, run the required stages
short-circuiting on their `None` sentinels, then the optional CCPP stage and
the two proximity analyses guarded by `ccpp is not None`. -/
def load_all_data_body (env : Env) : PyBody (Option ResultBundle) :=
  if !(env.hospEnv.fileOnDisk && env.shapeEnv.fileOnDisk) then Except.ok none
  else
    match load_and_clean_hospitals env.hospEnv with
    | none => Except.ok none
    | some hospitals =>
      match load_and_process_shapefile env.shapeEnv with
      | none => Except.ok none
      | some maps =>
        match merge_hospitals_with_shapefile (some hospitals) (some maps) with
        | none => Except.ok none
        | some dataset_cv =>
          match calculate_hospital_counts (some dataset_cv) (some maps) with
          | none => Except.ok none
          | some map_data =>
            match calculate_department_stats (some dataset_cv) with
            | none => Except.ok none
            | some dept_stats =>
              let ccpp := load_and_process_ccpp env.ccppEnv
              let gdf_hospitales := dataset_cv
              let lima := match ccpp with
                | some _ => analyze_proximity env.geo ccpp gdf_hospitales.rows "LIMA"
                | none => noProx
              let loreto := match ccpp with
                | some _ => analyze_proximity env.geo ccpp gdf_hospitales.rows "LORETO"
                | none => noProx
              Except.ok (some
                { hospitals := hospitals
                  maps := maps
                  dataset_cv := dataset_cv
                  map_data := map_data
                  dept_stats := dept_stats
                  gdf_hospitales := gdf_hospitales
                  lima_analysis := lima
                  loreto_analysis := loreto })

/-- `load_all_data`: the body under its catch-all handler. -/
def load_all_data (env : Env) : Option ResultBundle :=
  runPy (load_all_data_body env) none

/-! ## Provenance of cleaned facility rows -/

theorem mem_of_mem_clean {env : HospEnv} {out : CleanTable} {r : CleanRow}
    (hout : load_and_clean_hospitals env = some out) (hr : r ∈ out.rows) :
    ∃ raw ∈ env.raw.rows,
      statusFilter raw = true ∧ coordNotNull raw = true ∧ coordInPeru raw = true ∧
      r = toCleanRow raw := by
  unfold load_and_clean_hospitals runPy load_and_clean_hospitals_body at hout
  by_cases h1 : env.fileOnDisk = false
  · simp [h1] at hout
  · simp only [h1, if_false] at hout
    by_cases h2 : env.decodable = false
    · simp [h2] at hout
    · simp only [h2, if_false] at hout
      by_cases h3 : (env.raw.hasEstado && env.raw.hasCondicion &&
          env.raw.hasNorte && env.raw.hasEste) = true
      · simp only [h3, if_true] at hout
        obtain rfl : _ = out := Option.some_injective _ hout
        simp only [List.mem_map] at hr
        obtain ⟨raw, hraw4, hconv⟩ := hr
        have hraw3 : raw ∈
            ((env.raw.rows.filter statusFilter).filter coordNotNull).filter coordInPeru := by
          by_cases hu : env.raw.hasUbigeo
          · simp only [hu, if_true] at hraw4
            exact (List.mem_filter.mp hraw4).1
          · simpa [hu] using hraw4
        have hmem3 := List.mem_filter.mp hraw3
        have hmem2 := List.mem_filter.mp hmem3.1
        have hmem1 := List.mem_filter.mp hmem2.1
        exact ⟨raw, hmem1.1, hmem1.2, hmem2.2, hmem3.2, hconv.symm⟩
      · simp [h3] at hout

theorem statusFilter_iff (r : RawHospitalRow) :
    statusFilter r = true ↔
      r.estado = "ACTIVADO" ∧ r.condicion = "EN FUNCIONAMIENTO" := by
  simp [statusFilter]

theorem latMin_eq : latMin = -18.5 := by
  rw [latMin, Rat.mkRat_eq_div]
  norm_num

theorem lonMin_eq : lonMin = -81.5 := by
  rw [lonMin, Rat.mkRat_eq_div]
  norm_num

theorem coordInPeru_elim {r : RawHospitalRow}
    (hn : coordNotNull r = true) (hp : coordInPeru r = true) :
    ∃ n e : ℚ, r.norte = some n ∧ r.este = some e ∧
      -18.5 ≤ n ∧ n ≤ 0 ∧ -81.5 ≤ e ∧ e ≤ -68 := by
  rcases hN : r.norte with _ | n
  · simp [coordNotNull, hN] at hn
  rcases hE : r.este with _ | e
  · simp [coordNotNull, hE] at hn
  refine ⟨n, e, rfl, rfl, ?_⟩
  unfold coordInPeru at hp
  rw [hN, hE] at hp
  rw [← latMin_eq, ← lonMin_eq]
  simpa [inPeruBounds, and_assoc] using hp

/-- C1: every row of a table returned by `load_and_clean_hospitals` was
retained from an input row whose status is "ACTIVADO", whose condition is
"EN FUNCIONAMIENTO", whose two coordinate cells are non-null, and whose
NORTE (the latitude reading) lies in [-18.5, 0] and ESTE (the longitude
reading) lies in [-81.5, -68]. -/
theorem C1_hospital_filter (env : HospEnv) (out : CleanTable)
    (hout : load_and_clean_hospitals env = some out) :
    ∀ r ∈ out.rows, ∃ raw ∈ env.raw.rows,
      raw.estado = "ACTIVADO" ∧ raw.condicion = "EN FUNCIONAMIENTO" ∧
      ∃ n e : ℚ, raw.norte = some n ∧ raw.este = some e ∧
        -18.5 ≤ n ∧ n ≤ 0 ∧ -81.5 ≤ e ∧ e ≤ -68 ∧ r = toCleanRow raw := by
  intro r hr
  obtain ⟨raw, hmem, hst, hnn, hpe, hconv⟩ := mem_of_mem_clean hout hr
  obtain ⟨hestado, hcond⟩ := (statusFilter_iff raw).mp hst
  obtain ⟨n, e, hN, hE, b1, b2, b3, b4⟩ := coordInPeru_elim hnn hpe
  exact ⟨raw, hmem, hestado, hcond, n, e, hN, hE, b1, b2, b3, b4, hconv⟩

def c1raw : RawHospitalRow :=
  { estado := "ACTIVADO", condicion := "EN FUNCIONAMIENTO", norte := some (-12),
    este := some (-77), codigoUnico := "00001", nombre := "HOSPITAL UNO",
    ubigeoRaw := some 150101, departamento := "LIMA" }

def c1rawBad : RawHospitalRow :=
  { estado := "CERRADO", condicion := "EN FUNCIONAMIENTO", norte := some (-12),
    este := some (-77), codigoUnico := "00002", nombre := "HOSPITAL DOS",
    ubigeoRaw := some 150102, departamento := "LIMA" }

def c1env : HospEnv :=
  { fileOnDisk := true, decodable := true
    raw := { hasEstado := true, hasCondicion := true, hasNorte := true, hasEste := true,
             hasCodigoUnico := true, hasNombre := true, hasUbigeo := true,
             hasDepartamento := true, rows := [c1raw, c1rawBad] } }

def c1out : CleanTable :=
  { hasCodigoIpress := true, hasNombre := true, hasUbigeo := true, hasDepartamento := true,
    rows := [toCleanRow c1raw] }

theorem C1_hospital_filter_witness :
    ∃ raw ∈ c1env.raw.rows,
      raw.estado = "ACTIVADO" ∧ raw.condicion = "EN FUNCIONAMIENTO" ∧
      ∃ n e : ℚ, raw.norte = some n ∧ raw.este = some e ∧
        -18.5 ≤ n ∧ n ≤ 0 ∧ -81.5 ≤ e ∧ e ≤ -68 ∧ toCleanRow c1raw = toCleanRow raw :=
  C1_hospital_filter c1env c1out (by decide) (toCleanRow c1raw) (by decide)

/-- C7: the upstream coordinate swap is preserved exactly: for every
surviving row the output LONGITUD equals the input NORTE cell and the output
LATITUD equals the input ESTE cell. -/
theorem C7_coordinate_swap (env : HospEnv) (out : CleanTable)
    (hout : load_and_clean_hospitals env = some out) :
    ∀ r ∈ out.rows, ∃ raw ∈ env.raw.rows,
      raw.norte = some r.longitud ∧ raw.este = some r.latitud := by
  intro r hr
  obtain ⟨raw, hmem, _, hnn, hpe, hconv⟩ := mem_of_mem_clean hout hr
  obtain ⟨n, e, hN, hE, _⟩ := coordInPeru_elim hnn hpe
  refine ⟨raw, hmem, ?_, ?_⟩
  · rw [hconv]
    simp [toCleanRow, hN]
  · rw [hconv]
    simp [toCleanRow, hE]

def c7raw : RawHospitalRow :=
  { estado := "ACTIVADO", condicion := "EN FUNCIONAMIENTO", norte := some (-13),
    este := some (-72), codigoUnico := "00003", nombre := "HOSPITAL TRES",
    ubigeoRaw := some 80101, departamento := "CUSCO" }

def c7env : HospEnv :=
  { fileOnDisk := true, decodable := true
    raw := { hasEstado := true, hasCondicion := true, hasNorte := true, hasEste := true,
             hasCodigoUnico := true, hasNombre := true, hasUbigeo := true,
             hasDepartamento := true, rows := [c7raw] } }

def c7out : CleanTable :=
  { hasCodigoIpress := true, hasNombre := true, hasUbigeo := true, hasDepartamento := true,
    rows := [toCleanRow c7raw] }

theorem C7_coordinate_swap_witness :
    ∃ raw ∈ c7env.raw.rows,
      raw.norte = some (toCleanRow c7raw).longitud ∧
      raw.este = some (toCleanRow c7raw).latitud :=
  C7_coordinate_swap c7env c7out (by decide) (toCleanRow c7raw) (by decide)

/-- C10: `load_and_clean_hospitals` requires only the four columns Estado,
CondiciÛn, NORTE, ESTE.  Whenever those are present (and the file loads), it
succeeds, whatever the presence of the canonical optional columns, silently
omitting each absent one from the output, so the result need not carry a
UBIGEO column. -/
theorem C10_required_columns_only (env : HospEnv)
    (hf : env.fileOnDisk = true) (hd : env.decodable = true)
    (h1 : env.raw.hasEstado = true) (h2 : env.raw.hasCondicion = true)
    (h3 : env.raw.hasNorte = true) (h4 : env.raw.hasEste = true) :
    ∃ out : CleanTable, load_and_clean_hospitals env = some out ∧
      out.hasCodigoIpress = env.raw.hasCodigoUnico ∧
      out.hasNombre = env.raw.hasNombre ∧
      out.hasUbigeo = env.raw.hasUbigeo ∧
      out.hasDepartamento = env.raw.hasDepartamento := by
  refine ⟨{ hasCodigoIpress := env.raw.hasCodigoUnico
            hasNombre := env.raw.hasNombre
            hasUbigeo := env.raw.hasUbigeo
            hasDepartamento := env.raw.hasDepartamento
            rows := ((if env.raw.hasUbigeo then
                (((env.raw.rows.filter statusFilter).filter coordNotNull).filter
                  coordInPeru).filter (fun r => r.ubigeoRaw.isSome)
              else
                ((env.raw.rows.filter statusFilter).filter coordNotNull).filter
                  coordInPeru)).map toCleanRow }, ?_, rfl, rfl, rfl, rfl⟩
  unfold load_and_clean_hospitals runPy load_and_clean_hospitals_body
  simp [hf, hd, h1, h2, h3, h4]

def c10env : HospEnv :=
  { fileOnDisk := true, decodable := true
    raw := { hasEstado := true, hasCondicion := true, hasNorte := true, hasEste := true,
             hasCodigoUnico := false, hasNombre := false, hasUbigeo := false,
             hasDepartamento := false,
             rows := [{ estado := "ACTIVADO", condicion := "EN FUNCIONAMIENTO",
                        norte := some (-9), este := some (-75), codigoUnico := "",
                        nombre := "", ubigeoRaw := none, departamento := "" }] } }

/-! ## Per-district counts -/

theorem nodup_filter_beq {l : List Int} (hl : l.Nodup) (k : Int) :
    l.filter (fun x => x == k) = if k ∈ l then [k] else [] := by
  induction l with
  | nil => simp
  | cons x xs ih =>
    obtain ⟨hx, hxs⟩ := List.nodup_cons.mp hl
    rw [List.filter_cons, ih hxs]
    by_cases hxk : x = k
    · subst hxk
      simp [hx]
    · have hbk : (x == k) = false := by simpa using hxk
      have hkx : ¬k = x := fun he => hxk he.symm
      simp [hbk, List.mem_cons, hkx]

theorem groupbySize_filter (keys : List Int) (k : Int) :
    (groupbySize keys).filter (fun c => c.1 == k) =
      if k ∈ keys then [(k, keys.count k)] else [] := by
  unfold groupbySize
  rw [List.filter_map]
  have hcomp : ((fun c : Int × Nat => c.1 == k) ∘ fun d => (d, keys.count d)) =
      fun d => d == k := rfl
  rw [hcomp, nodup_filter_beq keys.nodup_dedup k]
  by_cases hk : k ∈ keys
  · simp [List.mem_dedup, hk]
  · simp [List.mem_dedup, hk]

theorem countGroups_eq (keys : List Int) (ms : List DistrictRow) :
    (ms.flatMap (fun m =>
      match (groupbySize keys).filter (fun c => c.1 == m.ubigeo) with
      | [] => [{ district := m, num_hospitales := 0 : CountRow }]
      | ls => ls.map (fun c => { district := m, num_hospitales := c.2 }))) =
    ms.map (fun m => { district := m, num_hospitales := keys.count m.ubigeo }) := by
  induction ms with
  | nil => simp
  | cons m ms ih =>
    rw [List.flatMap_cons, ih, groupbySize_filter]
    by_cases hk : m.ubigeo ∈ keys
    · simp [hk]
    · simp [hk, List.count_eq_zero.mpr hk]

theorem calcCountRows_eq (cv : JoinedTable) (maps : MapsTable) :
    calcCountRows cv maps = maps.rows.map
      (fun m => { district := m
                  num_hospitales := (cv.rows.map JoinedRow.key).count m.ubigeo }) := by
  simp only [calcCountRows]
  exact countGroups_eq (cv.rows.map JoinedRow.key) maps.rows

/-- C2: `calculate_hospital_counts` keeps exactly one count row per district
row (no district dropped, whatever the join result size), and a district no
joined facility references gets `num_hospitales = 0`. -/
theorem C2_counts_keep_all_districts (cv : JoinedTable) (maps : MapsTable) (md : CountTable)
    (h : calculate_hospital_counts (some cv) (some maps) = some md) :
    md.rows.length = maps.rows.length ∧
    ∀ row ∈ md.rows, (∀ r ∈ cv.rows, JoinedRow.key r ≠ row.district.ubigeo) →
      row.num_hospitales = 0 := by
  have hmd : md = { rows := calcCountRows cv maps } := by
    have := h
    simp only [calculate_hospital_counts, calculate_hospital_counts_body, runPy] at this
    exact (Option.some_injective _ this).symm
  subst hmd
  constructor
  · rw [calcCountRows_eq]
    simp
  · intro row hrow hnone
    rw [calcCountRows_eq] at hrow
    simp only [List.mem_map] at hrow
    obtain ⟨m, hm, rfl⟩ := hrow
    show (cv.rows.map JoinedRow.key).count m.ubigeo = 0
    apply List.count_eq_zero.mpr
    intro hk
    simp only [List.mem_map] at hk
    obtain ⟨r, hr, hkey⟩ := hk
    exact hnone r hr hkey

def c2cv : JoinedTable :=
  { hasDepartamento := true
    rows := [{ district := { ubigeo := 1, distrito := "A" }
               hospital := { codigoIpress := "1", nombre := "H1", ubigeo := 1,
                             longitud := -12, latitud := -77, departamento := "LIMA",
                             estado := "ACTIVADO" } }] }

def c2maps : MapsTable :=
  { rows := [{ ubigeo := 1, distrito := "A" }, { ubigeo := 2, distrito := "B" }] }

def c2md : CountTable :=
  { rows := [{ district := { ubigeo := 1, distrito := "A" }, num_hospitales := 1 },
             { district := { ubigeo := 2, distrito := "B" }, num_hospitales := 0 }] }

theorem C2_counts_keep_all_districts_witness :
    c2md.rows.length = c2maps.rows.length ∧
    ∀ row ∈ c2md.rows, (∀ r ∈ c2cv.rows, JoinedRow.key r ≠ row.district.ubigeo) →
      row.num_hospitales = 0 :=
  C2_counts_keep_all_districts c2cv c2maps c2md (by decide)

theorem length_innerMergeRows (ms : List DistrictRow) (hs : List CleanRow) :
    (innerMergeRows ms hs).length =
      (ms.map (fun m => (hs.filter (fun hr => hr.ubigeo == m.ubigeo)).length)).sum := by
  unfold innerMergeRows
  rw [List.length_flatMap]
  congr 1
  apply List.map_congr_left
  intro m _
  simp [Function.comp]

theorem count_map_const {β : Type} (l : List β) (c k : Int) :
    (l.map (fun _ => c)).count k = if c = k then l.length else 0 := by
  induction l with
  | nil => simp
  | cons a l ih =>
    rw [List.map_cons, List.count_cons, ih, List.length_cons]
    by_cases h : c = k
    · subst h
      simp
    · have hb : ¬(k == c) = true := by simpa using fun he => h he.symm
      simp [h, hb]

theorem count_key_innerMergeRows (ms : List DistrictRow) (hs : List CleanRow) (k : Int) :
    ((innerMergeRows ms hs).map JoinedRow.key).count k =
      (ms.map DistrictRow.ubigeo).count k *
        (hs.filter (fun hr => hr.ubigeo == k)).length := by
  induction ms with
  | nil => simp [innerMergeRows]
  | cons m ms ih =>
    have hstep : innerMergeRows (m :: ms) hs =
        ((hs.filter (fun hr => hr.ubigeo == m.ubigeo)).map
          (fun hr => { district := m, hospital := hr : JoinedRow })) ++
        innerMergeRows ms hs := by
      unfold innerMergeRows
      rw [List.flatMap_cons]
    rw [hstep, List.map_append, List.count_append, ih, List.map_map]
    have hfun : (JoinedRow.key ∘ fun hr => { district := m, hospital := hr : JoinedRow }) =
        fun _ => m.ubigeo := rfl
    rw [hfun, count_map_const, List.map_cons, List.count_cons]
    by_cases hmk : m.ubigeo = k
    · subst hmk
      simp only [if_pos rfl, beq_self_eq_true, if_true]
      ring
    · have h1 : ¬(k == m.ubigeo) = true := by simpa using fun he => hmk he.symm
      simp [hmk, h1]

theorem count_eq_filter_length_of_nodup {ms : List DistrictRow}
    (hnd : (ms.map DistrictRow.ubigeo).Nodup) (hs : List CleanRow) :
    ∀ m ∈ ms, ((innerMergeRows ms hs).map JoinedRow.key).count m.ubigeo =
      (hs.filter (fun hr => hr.ubigeo == m.ubigeo)).length := by
  intro m hm
  rw [count_key_innerMergeRows]
  have h1 : (ms.map DistrictRow.ubigeo).count m.ubigeo = 1 :=
    List.count_eq_one_of_mem hnd (List.mem_map_of_mem _ hm)
  rw [h1, one_mul]

/-- C3: when district codes are unique in the district table, the per-district
counts computed from the merge output sum to the number of joined facility
rows: the counts partition `dataset_cv` exactly. -/
theorem C3_counts_partition (h : CleanTable) (m : MapsTable) (cv : JoinedTable) (md : CountTable)
    (hnodup : (m.rows.map DistrictRow.ubigeo).Nodup)
    (hmerge : merge_hospitals_with_shapefile (some h) (some m) = some cv)
    (hmd : calculate_hospital_counts (some cv) (some m) = some md) :
    (md.rows.map CountRow.num_hospitales).sum = cv.rows.length := by
  have hcv : cv.rows = innerMergeRows m.rows h.rows := by
    unfold merge_hospitals_with_shapefile runPy merge_hospitals_with_shapefile_body at hmerge
    by_cases hu : h.hasUbigeo = false
    · simp [hu] at hmerge
    · simp only [hu, if_false] at hmerge
      by_cases hlen : (innerMergeRows m.rows h.rows).length = 0
      · simp [hlen] at hmerge
      · simp only [hlen, if_false] at hmerge
        have := (Option.some_injective _ hmerge)
        rw [← this]
  have hmdr : md = { rows := calcCountRows cv m } := by
    have := hmd
    simp only [calculate_hospital_counts, calculate_hospital_counts_body, runPy] at this
    exact (Option.some_injective _ this).symm
  subst hmdr
  rw [calcCountRows_eq]
  simp only [List.map_map]
  rw [hcv, length_innerMergeRows]
  congr 1
  apply List.map_congr_left
  intro x hx
  exact count_eq_filter_length_of_nodup hnodup h.rows x hx

def c3h : CleanTable :=
  { hasCodigoIpress := true, hasNombre := true, hasUbigeo := true, hasDepartamento := true,
    rows := [{ codigoIpress := "1", nombre := "H1", ubigeo := 1, longitud := -12,
               latitud := -77, departamento := "LIMA", estado := "ACTIVADO" },
             { codigoIpress := "2", nombre := "H2", ubigeo := 1, longitud := -12,
               latitud := -77, departamento := "LIMA", estado := "ACTIVADO" }] }

def c3m : MapsTable :=
  { rows := [{ ubigeo := 1, distrito := "A" }, { ubigeo := 2, distrito := "B" }] }

def c3cv : JoinedTable :=
  { hasDepartamento := true
    rows := innerMergeRows c3m.rows c3h.rows }

def c3md : CountTable :=
  { rows := calcCountRows c3cv c3m }

theorem C3_counts_partition_witness :
    (c3md.rows.map CountRow.num_hospitales).sum = c3cv.rows.length :=
  C3_counts_partition c3h c3m c3cv c3md (by decide) (by decide) (by decide)

/-! ## The joiner on an empty join result -/

def c5h : CleanTable :=
  { hasCodigoIpress := false, hasNombre := false, hasUbigeo := true, hasDepartamento := false,
    rows := [{ codigoIpress := "", nombre := "", ubigeo := 1, longitud := -12,
               latitud := -77, departamento := "", estado := "ACTIVADO" }] }

def c5m : MapsTable :=
  { rows := [{ ubigeo := 2, distrito := "B" }] }

/-- C5 counterexample: both inputs are present and carry UBIGEO columns, the
inner join matches zero rows (the facility's district code 1 is absent from
the district table, which only holds code 2), and the joiner returns the
`none` failure sentinel itself instead of an empty-but-valid table. -/
theorem C5_counterexample :
    innerMergeRows c5m.rows c5h.rows = [] ∧
    merge_hospitals_with_shapefile (some c5h) (some c5m) = none := by
  decide

/-- C5 amended: when both inputs are present with UBIGEO columns and the
inner join matches zero rows, `merge_hospitals_with_shapefile` itself returns
the `None` failure sentinel: the joiner, not the orchestrator, treats the
empty join as fatal. -/
theorem C5_empty_join_is_none (h : CleanTable) (m : MapsTable)
    (hu : h.hasUbigeo = true)
    (hempty : innerMergeRows m.rows h.rows = []) :
    merge_hospitals_with_shapefile (some h) (some m) = none := by
  unfold merge_hospitals_with_shapefile runPy merge_hospitals_with_shapefile_body
  simp [hu, hempty]

def c5wh : CleanTable :=
  { hasCodigoIpress := false, hasNombre := false, hasUbigeo := true, hasDepartamento := false,
    rows := [{ codigoIpress := "", nombre := "", ubigeo := 7, longitud := -10,
               latitud := -75, departamento := "", estado := "ACTIVADO" }] }

def c5wm : MapsTable :=
  { rows := [{ ubigeo := 9, distrito := "Z" }] }

theorem C5_empty_join_is_none_witness :
    merge_hospitals_with_shapefile (some c5wh) (some c5wm) = none :=
  C5_empty_join_is_none c5wh c5wm (by decide) (by decide)

/-! ## Per-department totals -/

theorem mem_insertDesc (x z : DeptStat) (l : List DeptStat) :
    z ∈ insertDesc x l ↔ z = x ∨ z ∈ l := by
  induction l with
  | nil => simp [insertDesc]
  | cons y ys ih =>
    rw [insertDesc]
    by_cases h : y.total_hospitals ≤ x.total_hospitals
    · simp only [h, if_true, List.mem_cons]
    · simp only [h, if_false, List.mem_cons, ih]
      tauto

theorem sum_insertDesc (x : DeptStat) (l : List DeptStat) :
    ((insertDesc x l).map DeptStat.total_hospitals).sum =
      x.total_hospitals + (l.map DeptStat.total_hospitals).sum := by
  induction l with
  | nil => simp [insertDesc]
  | cons y ys ih =>
    rw [insertDesc]
    by_cases h : y.total_hospitals ≤ x.total_hospitals
    · simp [h]
    · simp only [h, if_false, List.map_cons, List.sum_cons, ih]
      ring

theorem sum_sortDesc (l : List DeptStat) :
    ((sortDesc l).map DeptStat.total_hospitals).sum =
      (l.map DeptStat.total_hospitals).sum := by
  induction l with
  | nil => rfl
  | cons x xs ih =>
    rw [sortDesc, sum_insertDesc, ih, List.map_cons, List.sum_cons]

theorem pairwise_insertDesc (x : DeptStat) (l : List DeptStat)
    (hl : l.Pairwise (fun a b => b.total_hospitals ≤ a.total_hospitals)) :
    (insertDesc x l).Pairwise (fun a b => b.total_hospitals ≤ a.total_hospitals) := by
  induction l with
  | nil => simp [insertDesc]
  | cons y ys ih =>
    obtain ⟨hy, hys⟩ := List.pairwise_cons.mp hl
    rw [insertDesc]
    by_cases h : y.total_hospitals ≤ x.total_hospitals
    · simp only [h, if_true]
      rw [List.pairwise_cons]
      refine ⟨?_, hl⟩
      intro z hz
      rcases List.mem_cons.mp hz with rfl | hz
      · exact h
      · exact le_trans (hy z hz) h
    · simp only [h, if_false]
      rw [List.pairwise_cons]
      refine ⟨?_, ih hys⟩
      intro z hz
      rcases (mem_insertDesc x z ys).mp hz with rfl | hz
      · exact le_of_not_le h
      · exact hy z hz

theorem pairwise_sortDesc (l : List DeptStat) :
    (sortDesc l).Pairwise (fun a b => b.total_hospitals ≤ a.total_hospitals) := by
  induction l with
  | nil => simp [sortDesc]
  | cons x xs ih =>
    rw [sortDesc]
    exact pairwise_insertDesc x _ ih

/-- C6: the department totals returned by `calculate_department_stats` sum to
the number of rows of the joined table, and successive rows are in descending
(non-increasing) order of `total_hospitals` — ties, which the claim's own tie
clause allows, are broken deterministically. -/
theorem C6_dept_totals (cv : JoinedTable) (ds : List DeptStat)
    (h : calculate_department_stats (some cv) = some ds) :
    (ds.map DeptStat.total_hospitals).sum = cv.rows.length ∧
    ds.Pairwise (fun a b => b.total_hospitals ≤ a.total_hospitals) := by
  have hds : ds = sortDesc
      ((groupbySizeStr (cv.rows.map (fun r => r.hospital.departamento))).map
        (fun p => { departamento := p.1, total_hospitals := p.2 })) := by
    unfold calculate_department_stats runPy calculate_department_stats_body at h
    by_cases hdep : cv.hasDepartamento = false
    · simp [hdep] at h
    · simp only [hdep, if_false] at h
      exact (Option.some_injective _ h).symm
  subst hds
  refine ⟨?_, pairwise_sortDesc _⟩
  rw [sum_sortDesc, List.map_map]
  have h1 : (DeptStat.total_hospitals ∘ fun p : String × Nat =>
      { departamento := p.1, total_hospitals := p.2 : DeptStat }) = Prod.snd := rfl
  rw [h1]
  unfold groupbySizeStr
  rw [List.map_map]
  have h2 : (Prod.snd ∘ fun k =>
      (k, (cv.rows.map fun r => r.hospital.departamento).count k)) =
      fun k => (cv.rows.map fun r => r.hospital.departamento).count k := rfl
  rw [h2, List.sum_map_count_dedup_eq_length, List.length_map]

def c6cv : JoinedTable :=
  { hasDepartamento := true
    rows := [{ district := { ubigeo := 1, distrito := "A" }
               hospital := { codigoIpress := "1", nombre := "H1", ubigeo := 1,
                             longitud := -12, latitud := -77, departamento := "LIMA",
                             estado := "ACTIVADO" } },
             { district := { ubigeo := 1, distrito := "A" }
               hospital := { codigoIpress := "2", nombre := "H2", ubigeo := 1,
                             longitud := -12, latitud := -77, departamento := "LIMA",
                             estado := "ACTIVADO" } },
             { district := { ubigeo := 2, distrito := "B" }
               hospital := { codigoIpress := "3", nombre := "H3", ubigeo := 2,
                             longitud := -13, latitud := -72, departamento := "CUSCO",
                             estado := "ACTIVADO" } }] }

def c6ds : List DeptStat :=
  [{ departamento := "LIMA", total_hospitals := 2 },
   { departamento := "CUSCO", total_hospitals := 1 }]

theorem C6_dept_totals_witness :
    (c6ds.map DeptStat.total_hospitals).sum = c6cv.rows.length ∧
    c6ds.Pairwise (fun a b => b.total_hospitals ≤ a.total_hospitals) :=
  C6_dept_totals c6cv c6ds (by decide)

/-! ## Proximity extrema -/

theorem idxOfMin_lt : ∀ (l : List Nat), l ≠ [] → idxOfMin l < l.length
  | [], h => absurd rfl h
  | [_], _ => by simp [idxOfMin]
  | x :: y :: rest, _ => by
    simp only [idxOfMin]
    by_cases h : x ≤ (y :: rest).getD (idxOfMin (y :: rest)) 0
    · rw [if_pos h]
      simp
    · rw [if_neg h]
      have hlt := idxOfMin_lt (y :: rest) (by simp)
      simpa using Nat.succ_lt_succ hlt

theorem idxOfMax_lt : ∀ (l : List Nat), l ≠ [] → idxOfMax l < l.length
  | [], h => absurd rfl h
  | [_], _ => by simp [idxOfMax]
  | x :: y :: rest, _ => by
    simp only [idxOfMax]
    by_cases h : (y :: rest).getD (idxOfMax (y :: rest)) 0 ≤ x
    · rw [if_pos h]
      simp
    · rw [if_neg h]
      have hlt := idxOfMax_lt (y :: rest) (by simp)
      simpa using Nat.succ_lt_succ hlt

theorem getD_idxOfMin_le : ∀ (l : List Nat) (i : Nat), i < l.length →
    l.getD (idxOfMin l) 0 ≤ l.getD i 0
  | [], i, hi => by simp at hi
  | [x], i, hi => by
    have hz : i = 0 := by
      simpa using Nat.lt_one_iff.mp (by simpa using hi)
    subst hz
    simp [idxOfMin]
  | x :: y :: rest, i, hi => by
    simp only [idxOfMin]
    by_cases h : x ≤ (y :: rest).getD (idxOfMin (y :: rest)) 0
    · simp only [h, if_true, List.getD_cons_zero]
      cases i with
      | zero => simp
      | succ j =>
        have hj : j < (y :: rest).length := by simpa using hi
        calc x ≤ (y :: rest).getD (idxOfMin (y :: rest)) 0 := h
        _ ≤ (y :: rest).getD j 0 := getD_idxOfMin_le (y :: rest) j hj
        _ = (x :: y :: rest).getD (j + 1) 0 := (List.getD_cons_succ).symm
    · simp only [h, if_false, List.getD_cons_succ]
      cases i with
      | zero =>
        simpa using le_of_not_le h
      | succ j =>
        have hj : j < (y :: rest).length := by simpa using hi
        simpa using getD_idxOfMin_le (y :: rest) j hj

theorem getD_le_idxOfMax : ∀ (l : List Nat) (i : Nat), i < l.length →
    l.getD i 0 ≤ l.getD (idxOfMax l) 0
  | [], i, hi => by simp at hi
  | [x], i, hi => by
    have hz : i = 0 := by
      simpa using Nat.lt_one_iff.mp (by simpa using hi)
    subst hz
    simp [idxOfMax]
  | x :: y :: rest, i, hi => by
    simp only [idxOfMax]
    by_cases h : (y :: rest).getD (idxOfMax (y :: rest)) 0 ≤ x
    · simp only [h, if_true, List.getD_cons_zero]
      cases i with
      | zero => simp
      | succ j =>
        have hj : j < (y :: rest).length := by simpa using hi
        calc (x :: y :: rest).getD (j + 1) 0 = (y :: rest).getD j 0 :=
          List.getD_cons_succ
        _ ≤ (y :: rest).getD (idxOfMax (y :: rest)) 0 := getD_le_idxOfMax (y :: rest) j hj
        _ ≤ x := h
    · simp only [h, if_false, List.getD_cons_succ]
      cases i with
      | zero =>
        simpa using le_of_not_le h
      | succ j =>
        have hj : j < (y :: rest).length := by simpa using hi
        simpa using getD_le_idxOfMax (y :: rest) j hj

theorem getD_map_counts (W : List ProxRow) (i : Nat) (hi : i < W.length) (d : ProxRow) :
    (W.map ProxRow.hospitalsIn10km).getD i 0 = (W.getD i d).hospitalsIn10km := by
  rw [List.getD_eq_getElem _ _ (by simpa using hi), List.getD_eq_getElem _ _ hi,
    List.getElem_map]

/-- C4: for any department with at least one matching population center (the
match being case-insensitive) whose buffers are created, `analyze_proximity`
returns an isolated and a concentrated record with
`isolated.hospitals_in_10km ≤ concentrated.hospitals_in_10km`; when exactly
one center matches, both results are that same record. -/
theorem C4_proximity_extrema (geo : GeoOracle) (ccpp : CcppTable)
    (hospitals : List JoinedRow) (dept : String)
    (hbuf : geo.bufferOk = true) (hdep : ccpp.hasNombdep = true)
    (hne : matchingCenters ccpp dept ≠ []) :
    ∃ iso conc tbl,
      analyze_proximity geo (some ccpp) hospitals dept = (some iso, some conc, some tbl) ∧
      iso.hospitalsIn10km ≤ conc.hospitalsIn10km ∧
      ((matchingCenters ccpp dept).length = 1 → iso = conc) := by
  have hlen : (matchingCenters ccpp dept).length ≠ 0 := by
    simpa using fun hc => hne (List.length_eq_zero.mp hc)
  unfold analyze_proximity runPy analyze_proximity_body
  simp only [hdep, hbuf, hlen, Bool.true_eq_false, if_false]
  set W := (matchingCenters ccpp dept).map
    (fun c => { center := c, hospitalsIn10km := countHospitals geo hospitals c : ProxRow })
    with hW
  set counts := W.map ProxRow.hospitalsIn10km with hcounts
  have hWne : W ≠ [] := by
    simp only [hW, ne_eq, List.map_eq_nil_iff]
    exact hne
  have hcne : counts ≠ [] := by
    simp only [hcounts, ne_eq, List.map_eq_nil_iff]
    exact hWne
  have hclen : counts.length = W.length := by
    simp [hcounts]
  have hminW : idxOfMin counts < W.length := by
    rw [← hclen]
    exact idxOfMin_lt counts hcne
  have hmaxW : idxOfMax counts < W.length := by
    rw [← hclen]
    exact idxOfMax_lt counts hcne
  set dflt : ProxRow := { center := { nombdep := "", idc := 0 }, hospitalsIn10km := 0 }
    with hdflt
  refine ⟨W.getD (idxOfMin counts) dflt, W.getD (idxOfMax counts) dflt, W, rfl, ?_, ?_⟩
  · rw [← getD_map_counts W _ hminW dflt, ← getD_map_counts W _ hmaxW dflt, ← hcounts]
    exact getD_idxOfMin_le counts (idxOfMax counts) (by rw [hclen]; exact hmaxW)
  · intro h1
    have hc1 : counts.length = 1 := by
      simp [hcounts, hW, h1]
    obtain ⟨a, ha⟩ := List.length_eq_one.mp hc1
    rw [ha]
    simp [idxOfMin, idxOfMax]

def c4geo : GeoOracle :=
  { bufferOk := true, within := fun _ _ => false }

def c4ccpp : CcppTable :=
  { hasNombdep := true
    rows := [{ nombdep := "Lima", idc := 1 }, { nombdep := "LIMA", idc := 2 },
             { nombdep := "LORETO", idc := 3 }] }

theorem C4_proximity_extrema_witness :
    ∃ iso conc tbl,
      analyze_proximity c4geo (some c4ccpp) [] "LIMA" = (some iso, some conc, some tbl) ∧
      iso.hospitalsIn10km ≤ conc.hospitalsIn10km ∧
      ((matchingCenters c4ccpp "LIMA").length = 1 → iso = conc) :=
  C4_proximity_extrema c4geo c4ccpp [] "LIMA" rfl rfl (by decide)

/-! ## Orchestrator behaviour when the optional CCPP file is absent -/

theorem hosp_fileOnDisk_of_some {env : HospEnv} {t : CleanTable}
    (h : load_and_clean_hospitals env = some t) : env.fileOnDisk = true := by
  cases hval : env.fileOnDisk
  · unfold load_and_clean_hospitals runPy load_and_clean_hospitals_body at h
    simp [hval] at h
  · rfl

theorem shape_fileOnDisk_of_some {env : ShapeEnv} {t : MapsTable}
    (h : load_and_process_shapefile env = some t) : env.fileOnDisk = true := by
  cases hval : env.fileOnDisk
  · unfold load_and_process_shapefile runPy load_and_process_shapefile_body at h
    simp [hval] at h
  · rfl

theorem ccpp_none_of_absent {env : CcppEnv} (h : env.fileOnDisk = false) :
    load_and_process_ccpp env = none := by
  unfold load_and_process_ccpp runPy load_and_process_ccpp_body
  simp [h]

theorem counts_always_some (cv : JoinedTable) (m : MapsTable) :
    calculate_hospital_counts (some cv) (some m) = some { rows := calcCountRows cv m } :=
  rfl

/-- C8: when the population-center file is absent and the required stages
succeed, `load_all_data` still returns a result bundle, in which both
proximity entries are the `(None, None, None)` placeholder: the optional
file's absence never aborts the pipeline. -/
theorem C8_ccpp_absent_skips_proximity (env : Env) (ht : CleanTable) (mt : MapsTable)
    (cv : JoinedTable) (ds : List DeptStat)
    (hcc : env.ccppEnv.fileOnDisk = false)
    (hh : load_and_clean_hospitals env.hospEnv = some ht)
    (hm : load_and_process_shapefile env.shapeEnv = some mt)
    (hcv : merge_hospitals_with_shapefile (some ht) (some mt) = some cv)
    (hds : calculate_department_stats (some cv) = some ds) :
    ∃ res, load_all_data env = some res ∧
      res.lima_analysis = (none, none, none) ∧
      res.loreto_analysis = (none, none, none) := by
  have hf1 := hosp_fileOnDisk_of_some hh
  have hf2 := shape_fileOnDisk_of_some hm
  have hccpp := ccpp_none_of_absent hcc
  unfold load_all_data runPy load_all_data_body
  simp only [hf1, hf2, hh, hm, hcv, counts_always_some, hds, hccpp, Bool.and_self,
    Bool.not_true, Bool.false_eq_true, if_false]
  exact ⟨_, rfl, rfl, rfl⟩

def c8raw : RawHospitalRow :=
  { estado := "ACTIVADO", condicion := "EN FUNCIONAMIENTO", norte := some (-12),
    este := some (-77), codigoUnico := "00008", nombre := "HOSPITAL OCHO",
    ubigeoRaw := some 150101, departamento := "LIMA" }

def c8env : Env :=
  { hospEnv := { fileOnDisk := true, decodable := true
                 raw := { hasEstado := true, hasCondicion := true, hasNorte := true,
                          hasEste := true, hasCodigoUnico := true, hasNombre := true,
                          hasUbigeo := true, hasDepartamento := true, rows := [c8raw] } }
    shapeEnv := { fileOnDisk := true, readable := true, hasIddist := true,
                  hasUbigeoCol := false, hasDistrito := true,
                  rows := [{ idRaw := some 150101, distrito := "LIMA", geomValid := true }] }
    ccppEnv := { fileOnDisk := false, readable := true
                 raw := { hasDepCol := true, hasIdCol := true, rows := [] } }
    geo := { bufferOk := true, within := fun _ _ => true } }

def c8ht : CleanTable :=
  { hasCodigoIpress := true, hasNombre := true, hasUbigeo := true, hasDepartamento := true,
    rows := [toCleanRow c8raw] }

def c8mt : MapsTable :=
  { rows := [{ ubigeo := 150101, distrito := "LIMA" }] }

def c8cv : JoinedTable :=
  { hasDepartamento := true
    rows := innerMergeRows c8mt.rows c8ht.rows }

def c8ds : List DeptStat :=
  [{ departamento := "LIMA", total_hospitals := 1 }]

theorem C8_ccpp_absent_skips_proximity_witness :
    ∃ res, load_all_data c8env = some res ∧
      res.lima_analysis = (none, none, none) ∧
      res.loreto_analysis = (none, none, none) :=
  C8_ccpp_absent_skips_proximity c8env c8ht c8mt c8cv c8ds rfl (by decide) (by decide)
    (by decide) (by decide)

/-! ## No stage lets an exception escape -/

theorem pyCatch_ok {α : Type} (body : PyBody α) (fallback : α) :
    ∃ v, pyCatch body fallback = Except.ok v ∧ runPy body fallback = v := by
  cases body with
  | ok a => exact ⟨a, rfl, rfl⟩
  | error e => exact ⟨fallback, rfl, rfl⟩

/-- C9: each pipeline stage runs its entire body under a catch-all handler:
viewed at the exception level the handled body always yields `Except.ok`,
and the stage's return value is exactly that caught value (the documented
sentinel when the body raised).  No exception crosses a stage boundary. -/
theorem C9_no_exception_escapes :
    (∀ env : HospEnv, ∃ v, pyCatch (load_and_clean_hospitals_body env) none = Except.ok v ∧
      load_and_clean_hospitals env = v) ∧
    (∀ env : ShapeEnv, ∃ v, pyCatch (load_and_process_shapefile_body env) none = Except.ok v ∧
      load_and_process_shapefile env = v) ∧
    (∀ (hOpt : Option CleanTable) (mOpt : Option MapsTable), ∃ v,
      pyCatch (merge_hospitals_with_shapefile_body hOpt mOpt) none = Except.ok v ∧
      merge_hospitals_with_shapefile hOpt mOpt = v) ∧
    (∀ (cvOpt : Option JoinedTable) (mOpt : Option MapsTable), ∃ v,
      pyCatch (calculate_hospital_counts_body cvOpt mOpt) none = Except.ok v ∧
      calculate_hospital_counts cvOpt mOpt = v) ∧
    (∀ cvOpt : Option JoinedTable, ∃ v,
      pyCatch (calculate_department_stats_body cvOpt) none = Except.ok v ∧
      calculate_department_stats cvOpt = v) ∧
    (∀ env : CcppEnv, ∃ v, pyCatch (load_and_process_ccpp_body env) none = Except.ok v ∧
      load_and_process_ccpp env = v) ∧
    (∀ (geo : GeoOracle) (ccppOpt : Option CcppTable) (hospitals : List JoinedRow)
      (dept : String), ∃ v,
      pyCatch (analyze_proximity_body geo ccppOpt hospitals dept) noProx = Except.ok v ∧
      analyze_proximity geo ccppOpt hospitals dept = v) ∧
    (∀ env : Env, ∃ v, pyCatch (load_all_data_body env) none = Except.ok v ∧
      load_all_data env = v) :=
  ⟨fun _ => pyCatch_ok _ _, fun _ => pyCatch_ok _ _, fun _ _ => pyCatch_ok _ _,
   fun _ _ => pyCatch_ok _ _, fun _ => pyCatch_ok _ _, fun _ => pyCatch_ok _ _,
   fun _ _ _ _ => pyCatch_ok _ _, fun _ => pyCatch_ok _ _⟩

theorem C10_required_columns_only_witness :
    ∃ out : CleanTable, load_and_clean_hospitals c10env = some out ∧
      out.hasCodigoIpress = c10env.raw.hasCodigoUnico ∧
      out.hasNombre = c10env.raw.hasNombre ∧
      out.hasUbigeo = c10env.raw.hasUbigeo ∧
      out.hasDepartamento = c10env.raw.hasDepartamento :=
  C10_required_columns_only c10env (by decide) (by decide) (by decide) (by decide)
    (by decide) (by decide)

end HospitalsPeru
